import Mathlib

/-!
# Verification of the ModSecurity installer's fetch/cache/build/verify pipeline

This file gives a shallow embedding in Lean 4 of the acquisition, caching,
build and compatibility-verification logic of the `php_security_scan`
repository's ModSecurity installer, and proves (or refutes) the testable
properties stated in its specification.

Conventions of the embedding:
* subprocess invocations (git, curl, nginx, rpm, make) are abstracted by
  oracle parameters recording their outcome, and the commands a code path
  runs are collected into explicit traces so that "performs N subprocess
  calls" is a provable statement;
* the filesystem is modelled either as `String → Option Nat` (path to size
  of an existing file) or as `String → Bool` (existence), matching what the
  Python code inspects (`os.path.exists`, `os.path.getsize`);
* Python string operations are modelled on `String` / `List Char`
  faithfully: `s.startswith(p)` is `pyStartswith s p` (prefix test on the
  character lists), `sub in s` is `pyContains` (prefix of some suffix),
  `s.strip()` is `pyStrip`.
-/

set_option autoImplicit false

namespace ModSecInstall

/-- Python's `s.startswith(p)`: `p` is a character-list prefix of `s`. -/
def pyStartswith (s p : String) : Bool :=
  p.data.isPrefixOf s.data

/-- Substring occurrence on character lists: `needle` occurs in `hay` iff
it is a prefix of some suffix of `hay`. -/
def strContainsSub : List Char → List Char → Bool
  | [], needle => needle.isEmpty
  | c :: t, needle => needle.isPrefixOf (c :: t) || strContainsSub t needle

/-- Python's `sub in s` substring test. -/
def pyContains (s sub : String) : Bool :=
  strContainsSub s.data sub.data

/-- Python's `s.strip()`: drop whitespace from both ends. -/
def pyStrip (s : String) : String :=
  ⟨((s.data.dropWhile Char.isWhitespace).reverse.dropWhile
      Char.isWhitespace).reverse⟩

/-! ## C1: ordered-mirror fallback (`try_alternate_repo`,
`download_repo_with_fallback`)

`modules/git_manager.py::try_alternate_repo` clones from the primary URL
and, only if that fails, from the fallback URL.
`install_modsecurity.py::download_repo_with_fallback` walks the sources
`["primary", "secondary", "fallback"]`, skipping sources with no configured
URL, and returns success on the first `git clone` that exits zero,
continuing past each `CalledProcessError`.

The success of one `git clone` invocation for a URL is abstracted by the
reachability oracle `R : String → Bool`. -/

/-- `git_manager.py::try_alternate_repo`: clone primary; on failure clone
fallback. Returns whether it succeeded and which mirror supplied the
artifact. -/
def try_alternate_repo (R : String → Bool) (primaryUrl fallbackUrl : String) :
    Bool × Option String :=
  if R primaryUrl then (true, some primaryUrl)
  else if R fallbackUrl then (true, some fallbackUrl)
  else (false, none)

/-- `install_modsecurity.py::download_repo_with_fallback`: iterate the
configured source URLs in order (a `none` entry is a source key missing from
`REPO_URLS[repo_name]`, skipped by `continue`), return on the first clone
that succeeds. Returns the URL the artifact came from. -/
def download_repo_with_fallback (R : String → Bool) :
    List (Option String) → Option String
  | [] => none
  | none :: rest => download_repo_with_fallback R rest
  | some u :: rest =>
      if R u then some u else download_repo_with_fallback R rest

/-! ## C3: zero-size cache entries (`download_file` lookup,
`cache_file_exists`)

`modules/downloader.py::download_file` line 79 treats the cache as a hit
only when `os.path.exists(cache_file) and os.path.getsize(cache_file) > 0`.
`modules/cache_manager.py::cache_file_exists` line 141 checks only
`os.path.exists(cache_path)`. -/

/-- A filesystem fragment: maps a path to `some size` when a file exists
there, `none` when it does not. -/
def FileSys : Type := String → Option Nat

/-- The cache-hit test of `downloader.py::download_file` (line 79):
`os.path.exists(cache_file) and os.path.getsize(cache_file) > 0`. -/
def download_cache_hit (fs : FileSys) (cacheFile : String) : Bool :=
  match fs cacheFile with
  | some n => decide (0 < n)
  | none => false

/-- What `download_file` does with the cache: copy the cached file on a
hit, otherwise fall through to the curl download loop. -/
inductive DlAction where
  | useCache
  | download
deriving DecidableEq

/-- The branch `download_file` takes after its cache lookup. -/
def download_file_action (fs : FileSys) (cacheFile : String) : DlAction :=
  if download_cache_hit fs cacheFile then .useCache else .download

/-- `cache_manager.py::cache_file_exists`: reports a cache entry as present
whenever the path exists, with no size check. -/
def cache_file_exists (fs : FileSys) (cachePath : String) : Bool :=
  (fs cachePath).isSome

/-- A concrete filesystem holding exactly one zero-byte cached file. -/
def zeroByteCacheFs : FileSys :=
  fun p =>
    if p = "/root/.modsecurity_cache/files/nginx/latest/nginx-1.24.0.tar.gz"
    then some 0 else none

/-! ## C2: quarantine of binary-incompatible modules
(`legacy/install_modsecurity_original.py::install_modsecurity_nginx`,
lines 1182-1239)

After copying the built module to its canonical path `dst_module_path`, the
code runs the host binary's configuration test (`nginx -t`). On a
`CalledProcessError` it computes
`is_binary_incompatible = "not binary compatible" in e.stderr` and renames
the module file to `dst_module_path + ".incompatible"` via `os.rename`.
The classification of the outcome follows the spec's
`CompatibilityResult.status` vocabulary: exit success → `compatible`,
failure with the diagnostic substring → `binaryIncompatible`, any other
failure → `configError`. -/

/-- The spec's `CompatibilityResult.status` values. -/
inductive CompatStatus where
  | compatible
  | binaryIncompatible
  | configError
deriving DecidableEq

/-- `"not binary compatible" in err_output` (line 1195). -/
def hasIncompatDiag (errOutput : String) : Bool :=
  pyContains errOutput "not binary compatible"

/-- The compatibility test and quarantine step of
`install_modsecurity_nginx` (legacy, lines 1190-1229): given the test
invocation's exit status and stderr, the existence map of the module
directory, and the canonical module path, return the classified status and
the filesystem after the step. On any test failure the module file is
renamed (`os.rename`) to the canonical path plus `".incompatible"`. -/
def verify_and_quarantine (exitOk : Bool) (errOutput : String)
    (fs : String → Bool) (dstModulePath : String) :
    CompatStatus × (String → Bool) :=
  if exitOk then (.compatible, fs)
  else
    ((if hasIncompatDiag errOutput then .binaryIncompatible
      else .configError),
     fun p =>
       if p = dstModulePath ++ ".incompatible" then fs dstModulePath
       else if p = dstModulePath then false
       else fs p)

/-! ## C5: cache writes are direct copies, not temp-then-rename
(`modules/downloader.py::download_file` lines 112-123,
`modules/git_manager.py::clone_git_repo` lines 331-345)

Both cache-write paths are modelled as traces of filesystem operations so
that "uses a write-to-temporary-then-atomic-rename strategy" becomes a
decidable property of the trace. -/

/-- One filesystem operation performed by a cache write. -/
inductive FsOp where
  | mkdirp (p : String)
  | rmtree (p : String)
  | copyFile (src dst : String)
  | copyTree (src dst : String)
  | renameFile (src dst : String)
deriving DecidableEq

/-- The cache-save step of `download_file` (lines 112-123): ensure the
cache entry's directory exists, then `shutil.copy2(target_file,
cache_file)` — a direct copy onto the final cache path. -/
def download_file_cache_save (cacheDirExists : Bool)
    (targetFile cacheFile cacheParent : String) : List FsOp :=
  (if cacheDirExists then [] else [.mkdirp cacheParent]) ++
    [.copyFile targetFile cacheFile]

/-- The backup-to-cache step of `clone_git_repo` (lines 331-345): remove a
pre-existing cache entry, ensure the parent directory, then
`shutil.copytree(target_dir, cache_repo_path)` — a direct copy onto the
final cache path. -/
def clone_backup_to_cache (cacheExists : Bool)
    (targetDir cacheRepoPath cacheParent : String) : List FsOp :=
  (if cacheExists then [.rmtree cacheRepoPath] else []) ++
    [.mkdirp cacheParent, .copyTree targetDir cacheRepoPath]

/-- Modelled from the spec's words (§4.1 `put`): a trace follows the
write-to-temporary-then-atomic-rename strategy for `finalPath` when no copy
lands directly on `finalPath` and some rename from a different path
installs `finalPath`. Used only to compare the code's traces against the
spec. -/
def writes_temp_then_renames (trace : List FsOp) (finalPath : String) :
    Bool :=
  (trace.all fun op =>
    match op with
    | .copyFile _ d => !(d == finalPath)
    | .copyTree _ d => !(d == finalPath)
    | _ => true) &&
  (trace.any fun op =>
    match op with
    | .renameFile s d => d == finalPath && !(s == finalPath)
    | _ => false)

/-- `true` when the trace contains no rename at all. -/
def trace_has_no_rename (trace : List FsOp) : Bool :=
  trace.all fun op =>
    match op with
    | .renameFile _ _ => false
    | _ => true

/-! ## C4: unparseable host configure arguments
(`install_modsecurity.py::get_nginx_info` lines 1986-2004 and
`install_modsecurity_nginx` lines 1632-1670)

The regex parses of the `nginx -v` / `nginx -V` output are abstracted by
two oracles: `versionParse` (the `nginx/(\d+\.\d+\.\d+)` match) and
`configureParse` (the `configure arguments:\s*(.*)` match group). The
control flow around them is modelled exactly: when the configure-arguments
line does not match, `get_nginx_info` returns the pair
`(nginx_version, "")` (lines 1995-1997), and `install_modsecurity_nginx`
aborts only on `if not nginx_version` (lines 1636-1638) before calling
`compile_dynamic_module` with whatever argument string it got. -/

/-- `get_nginx_info`: `(nginx_version, configure_args)` as `Option`s
(`none` models Python `None`). -/
def get_nginx_info (binaryExists : Bool)
    (versionParse configureParse : Option String) :
    Option String × Option String :=
  if binaryExists = false then (none, none)
  else
    match versionParse with
    | none => (none, none)
    | some v =>
      match configureParse with
      | some args => (some v, some args)
      | none => (some v, some "")

/-- Whether `install_modsecurity_nginx` aborts at its `get_nginx_info`
gate, or proceeds towards `compile_dynamic_module` with a configure
argument string. -/
inductive ModuleBuildGate where
  | failed
  | proceedWith (configureArgs : String)
deriving DecidableEq

/-- The gate at the top of `install_modsecurity_nginx`: abort iff
`not nginx_version` (Python truthiness: `None` or the empty string);
otherwise continue with the returned configure arguments. -/
def install_modsecurity_nginx_gate (binaryExists : Bool)
    (versionParse configureParse : Option String) : ModuleBuildGate :=
  match get_nginx_info binaryExists versionParse configureParse with
  | (none, _) => .failed
  | (some v, args) =>
      if v = "" then .failed
      else .proceedWith (args.getD "")

/-! ## C6: idempotent submodule initialization
(`modules/git_manager.py::init_git_submodules` lines 367-430 and
`check_submodules_initialized` lines 40-85)

The repository tree is a `RepoState`; the subprocess commands a call runs
are collected in order. `check_submodules_initialized` runs
`git submodule status` (one subprocess) unless `.gitmodules` is absent; a
submodule is uninitialized when its status line, stripped, starts with
`-`. `init_git_submodules` first runs that check and, when it reports fully
initialized, returns success immediately — after having paid for the
status subprocess. -/

/-- The observable state of a repository tree. -/
structure RepoState where
  hasGitDir : Bool
  hasGitmodules : Bool
  statusLines : List String

/-- Outcome of one `git submodule init` / `git submodule update` attempt
inside the retry loop of `init_git_submodules`. -/
inductive SubmoduleAttempt where
  | initFails
  | updateFails
  | ok
deriving DecidableEq

/-- `check_submodules_initialized`: returns whether all submodules are
initialized, together with the subprocess commands run. Without a
`.gitmodules` file it returns `true` with zero subprocess calls; otherwise
it runs `git submodule status` and scans for lines whose stripped form
starts with `-`. -/
def check_submodules_initialized (s : RepoState) : Bool × List String :=
  if s.hasGitmodules = false then (true, [])
  else
    let needsInit := s.statusLines.any fun l =>
      !(pyStrip l == "") && pyStartswith (pyStrip l) "-"
    (!needsInit, ["git submodule status"])

/-- The retry loop of `init_git_submodules` (lines 394-425): run
`git submodule init` then `git submodule update`; on failure retry while
attempts remain. `fuel` is `retry - attempt`. -/
def init_submodules_loop (outcome : Nat → SubmoduleAttempt) :
    Nat → Nat → Bool × List String
  | attempt, 0 =>
    match outcome attempt with
    | .ok => (true, ["git submodule init", "git submodule update"])
    | .initFails => (false, ["git submodule init"])
    | .updateFails => (false, ["git submodule init", "git submodule update"])
  | attempt, fuel + 1 =>
    match outcome attempt with
    | .ok => (true, ["git submodule init", "git submodule update"])
    | .initFails =>
      let r := init_submodules_loop outcome (attempt + 1) fuel
      (r.1, "git submodule init" :: r.2)
    | .updateFails =>
      let r := init_submodules_loop outcome (attempt + 1) fuel
      (r.1, "git submodule init" :: "git submodule update" :: r.2)

/-- `init_git_submodules`: fail fast when the directory is not a git
repository (a filesystem check, no subprocess); return success immediately
when the status check reports everything initialized; otherwise run the
retry loop. Returns the result and the subprocess trace. -/
def init_git_submodules (s : RepoState) (outcome : Nat → SubmoduleAttempt)
    (retry : Nat) : Bool × List String :=
  if s.hasGitDir = false then (false, [])
  else
    let chk := check_submodules_initialized s
    if chk.1 then (true, chk.2)
    else
      let r := init_submodules_loop outcome 0 retry
      (r.1, chk.2 ++ r.2)

/-! ## C7: bounded build retries with clean between attempts
(`modules/modsecurity_builder.py::build_modsecurity` lines 139-283)

The loop `for attempt in range(max_retries + 1)` runs the build steps; the
outcome of one iteration is abstracted by an oracle. On a
`CalledProcessError`, or when `libmodsecurity.so` is missing after `make`,
the code runs `make clean` and retries while `attempt < max_retries`;
the iteration that finds no build script at all returns `False`
immediately. Each iteration's events are kept as one trace segment. -/

/-- Events of interest inside one build iteration. -/
inductive BuildEvent where
  | configure
  | compile
  | clean
deriving DecidableEq

/-- How one iteration of the build loop ends. -/
inductive AttemptOutcome where
  | noBuildSystem
  | configFail
  | compileFail
  | libMissing
  | ok
deriving DecidableEq

/-- The configure/compile events one iteration performs before its outcome
is known. -/
def attemptEvents : AttemptOutcome → List BuildEvent
  | .noBuildSystem => []
  | .configFail => [.configure]
  | .compileFail => [.configure, .compile]
  | .libMissing => [.configure, .compile]
  | .ok => [.configure, .compile]

/-- The build loop from iteration `attempt` with `fuel = max_retries -
attempt` iterations still allowed after this one. Success returns `true`
at once; `noBuildSystem` returns `false` at once (the `return False` at
lines 200/203); any other failure runs `make clean` and retries while fuel
remains. -/
def build_iter (outcome : Nat → AttemptOutcome) :
    Nat → Nat → Bool × List (List BuildEvent)
  | attempt, 0 =>
    match outcome attempt with
    | .ok => (true, [[.configure, .compile]])
    | o => (false, [attemptEvents o])
  | attempt, fuel + 1 =>
    match outcome attempt with
    | .ok => (true, [[.configure, .compile]])
    | .noBuildSystem => (false, [[]])
    | o =>
      let r := build_iter outcome (attempt + 1) fuel
      (r.1, (attemptEvents o ++ [.clean]) :: r.2)

/-- `build_modsecurity`: short-circuit when `libmodsecurity.so` already
exists (line 132), else run the retry loop with `max_retries`. -/
def build_modsecurity (alreadyBuilt : Bool)
    (outcome : Nat → AttemptOutcome) (maxRetries : Nat) :
    Bool × List (List BuildEvent) :=
  if alreadyBuilt then (true, []) else build_iter outcome 0 maxRetries

/-! ## C8: configure-argument filtering for the standalone module build
(`install_modsecurity.py::compile_dynamic_module` lines 1551-1619)

The host's configure-argument string is split on whitespace; the loop drops
tokens starting with `--prefix=` or `--add-dynamic-module`, and for a bare
`--prefix` (or `--add-dynamic-module`, unreachable) also drops the next
token via `skip_next`; finally one
`--add-dynamic-module={connector_dir}` is appended. The embedding works on
the token list produced by `configure_args.split()`. -/

/-- The token filter of `compile_dynamic_module` (lines 1569-1584); the
`Bool` argument is `skip_next`. -/
def filterConfigureArgs : Bool → List String → List String
  | _, [] => []
  | true, _ :: rest => filterConfigureArgs false rest
  | false, a :: rest =>
    if pyStartswith a "--prefix=" || pyStartswith a "--add-dynamic-module"
    then filterConfigureArgs false rest
    else if a == "--prefix" || a == "--add-dynamic-module"
    then filterConfigureArgs true rest
    else a :: filterConfigureArgs false rest

/-- The full argument list `compile_dynamic_module` passes to
`./configure`: the filtered host tokens plus the single appended module-add
argument (line 1587). -/
def compile_dynamic_module_args (hostArgs : List String)
    (connectorDir : String) : List String :=
  filterConfigureArgs false hostArgs ++
    ["--add-dynamic-module=" ++ connectorDir]

/-! ### C8, second cited implementation:
`modules/nginx_integrator.py::build_nginx_module` (lines 296-320)

Here the parsed host options come from `get_nginx_compile_options`
(lines 169-189): `config_args.split(' --')` makes every key lose its
leading `--` except the first chunk, which keeps it (hence the
`key.startswith("--")` special case at line 308); a chunk without `=` maps
to the value `True`, otherwise to its string value. The dict is abstracted
as the association list the parse produced. The configure command is built
at lines 298-314: it starts with the hardcoded `--prefix={nginx_path}`,
re-applies every host option whose key is not exactly
`add-dynamic-module` or `add-module`, and appends one
`--add-dynamic-module={connector_dir}`. -/

/-- A value in the `options` dict of `get_nginx_compile_options`:
`True` for a flag-only argument, a string for `key=value`. -/
inductive OptValue where
  | flagTrue
  | strVal (v : String)
deriving DecidableEq

/-- The configure-argument list `build_nginx_module` assembles (lines
298-314), one token per appended `f"--{key}"` / `f"{key}={value}"`
fragment. -/
def build_nginx_module_args (nginxPath : String)
    (options : List (String × OptValue)) (connectorDir : String) :
    List String :=
  ("--prefix=" ++ nginxPath) ::
    (options.filterMap fun kv =>
      if kv.1 = "add-dynamic-module" ∨ kv.1 = "add-module" then none
      else
        match kv.2 with
        | .flagTrue => some ("--" ++ kv.1)
        | .strVal v =>
          if pyStartswith kv.1 "--" then some (kv.1 ++ "=" ++ v)
          else some ("--" ++ kv.1 ++ "=" ++ v)) ++
    ["--add-dynamic-module=" ++ connectorDir]

/-! ## C9: corrupt archives during connector download
(`modules/nginx_integrator.py::download_connector` lines 28-141, and the
generic `modules/downloader.py::download_file` lines 94-157)

`download_connector`'s download block (lines 48-74) evaluates
`download_urls = [MODSEC_CONNECTOR_GITEE_URL, MODSEC_CONNECTOR_GITHUB_URL]`
— two names that `nginx_integrator.py` never imports (line 20 imports only
`MODSEC_VERSION, MODSEC_CONNECTOR_VERSION, MODSEC_CONNECTOR_URL`) and never
defines — so whenever the archive file is absent the function raises an
uncaught `NameError` before the first `curl`; the mirror loop is dead
code. Only with a pre-existing archive file does the function reach its
verification steps: the extraction-directory short-circuit (lines 77-80),
the zero-size check which fails without removal (lines 83-85), and
`tar -tf`, whose failure removes the file and returns `""` (lines 88-97).

`download_file`'s own download loop performs the `curl` retries; its only
check on a fetched file is `os.path.getsize > 0` (line 107) — no archive
integrity verification — and on passing it the file is copied into the
cache (lines 112-123) and the function returns success. -/

/-- Quality of a connector archive on disk. -/
inductive ArchiveQuality where
  | emptyFile
  | corruptTar
  | validTar
deriving DecidableEq

/-- How `download_connector` ends. -/
inductive ConnectorOutcome where
  | crashedNameError
  | failedInvalid
  | failedCorruptRemoved
  | extracted
  | alreadyExtracted
deriving DecidableEq

/-- The observable result of `download_connector`: its outcome, how many
`curl` invocations it performed, and what remains on disk at
`connector_path`. -/
structure ConnectorResult where
  outcome : ConnectorOutcome
  curlAttempts : Nat
  fileOnDisk : Option ArchiveQuality
deriving DecidableEq

/-- `download_connector`: when no archive file pre-exists, the function
raises `NameError` at the `download_urls` definition before any `curl`
(zero attempts, nothing on disk). With a pre-existing file it skips the
download block, short-circuits when the extraction directory exists, and
otherwise verifies size and tar integrity, removing the file only in the
corrupt-tar case. -/
def download_connector (dirExists : Bool)
    (existingFile : Option ArchiveQuality) : ConnectorResult :=
  match existingFile with
  | none => ⟨.crashedNameError, 0, none⟩
  | some q =>
    if dirExists then ⟨.alreadyExtracted, 0, some q⟩
    else
      match q with
      | .emptyFile => ⟨.failedInvalid, 0, some .emptyFile⟩
      | .corruptTar => ⟨.failedCorruptRemoved, 0, none⟩
      | .validTar => ⟨.extracted, 0, some .validTar⟩

/-- What one `curl` attempt inside `download_file` does: raise
(`CalledProcessError` / `TimeoutExpired`) or write a file of some
quality. -/
inductive CurlOutcome where
  | raised
  | wrote (q : ArchiveQuality)
deriving DecidableEq

/-- The download loop of `download_file` (lines 94-157), entered after a
cache miss: each attempt runs `curl`; a written file of nonzero size is
copied into the cache and the function returns success — with no archive
integrity check — while an exception or a zero-size file consumes the
attempt and retries. Returns the overall result and the cache content
afterwards; `fuel` is the number of attempts still allowed. -/
def download_file_fetch_loop (outcome : Nat → CurlOutcome) :
    Nat → Nat → Bool × Option ArchiveQuality
  | _, 0 => (false, none)
  | attempt, fuel + 1 =>
    match outcome attempt with
    | .raised => download_file_fetch_loop outcome (attempt + 1) fuel
    | .wrote q =>
      if q = .emptyFile then
        download_file_fetch_loop outcome (attempt + 1) fuel
      else (true, some q)

/-! ## C10: the half-threshold of direct RPM installation
(`install_modsecurity.py::install_direct_rpm_dependencies` lines
1228-1328)

The predefined packages come in categories; one package is counted as
installed only when its download, its RPM validation and its `rpm -Uvh`
all succeed. The function returns
`install_success_count >= total_packages / 2` — a Python float division,
modelled exactly in `ℚ`. -/

/-- Per-package outcome of the three steps attempted for it. -/
structure RpmOutcome where
  downloadOk : Bool
  validOk : Bool
  installOk : Bool

/-- Whether the package counted towards `install_success_count`. -/
def rpmInstalled (o : RpmOutcome) : Bool :=
  o.downloadOk && o.validOk && o.installOk

/-- The per-category install loop (lines 1280-1314): count the packages
whose three steps all succeed. -/
def install_loop_count : List RpmOutcome → Nat
  | [] => 0
  | o :: rest =>
    (if rpmInstalled o then 1 else 0) + install_loop_count rest

/-- `install_success_count` over all categories. -/
def install_success_count (cats : List (List RpmOutcome)) : Nat :=
  (cats.map install_loop_count).sum

/-- `total_packages = sum(len(pkgs) for pkgs in rpm_packages.values())`. -/
def total_packages (cats : List (List RpmOutcome)) : Nat :=
  (cats.map List.length).sum

/-- `install_direct_rpm_dependencies`' return value:
`install_success_count >= total_packages / 2` with `/` the Python float
(here exact rational) division. -/
def install_direct_rpm_dependencies (cats : List (List RpmOutcome)) :
    Bool :=
  decide ((total_packages cats : ℚ) / 2 ≤ (install_success_count cats : ℚ))

end ModSecInstall

namespace ModSecInstall

/-! ### C1 theorems -/

/-- C1. For every reachability assignment and every mirror ordering:
`try_alternate_repo` succeeds iff the primary or the fallback mirror is
reachable, and the artifact comes from the first reachable of the two;
`download_repo_with_fallback` succeeds iff some configured mirror is
reachable, and the artifact comes from the first reachable configured
mirror in order (`List.find?`). In particular a single mirror's failure
never aborts the resolution. -/
theorem c1_resolve_first_reachable (R : String → Bool)
    (primaryUrl fallbackUrl : String) (urls : List (Option String)) :
    ((try_alternate_repo R primaryUrl fallbackUrl).1 = true ↔
      (R primaryUrl = true ∨ R fallbackUrl = true)) ∧
    (try_alternate_repo R primaryUrl fallbackUrl).2 =
      [primaryUrl, fallbackUrl].find? R ∧
    ((download_repo_with_fallback R urls).isSome = true ↔
      ∃ u ∈ urls.filterMap id, R u = true) ∧
    download_repo_with_fallback R urls = (urls.filterMap id).find? R := by
  refine ⟨?_, ?_, ?_, ?_⟩
  · unfold try_alternate_repo
    by_cases hp : R primaryUrl <;> by_cases hf : R fallbackUrl <;>
      simp [hp, hf]
  · unfold try_alternate_repo
    by_cases hp : R primaryUrl <;> by_cases hf : R fallbackUrl <;>
      simp [List.find?, hp, hf]
  · induction urls with
    | nil => simp [download_repo_with_fallback]
    | cons h t ih =>
      cases h with
      | none => simpa [download_repo_with_fallback] using ih
      | some u =>
        by_cases hu : R u
        · simp [download_repo_with_fallback, hu]
        · have hstep : download_repo_with_fallback R (some u :: t) =
              download_repo_with_fallback R t := by
            simp [download_repo_with_fallback, hu]
          rw [hstep, ih]
          simp only [List.filterMap_cons, id]
          constructor
          · intro ⟨v, hv, hRv⟩
            exact ⟨v, List.mem_cons_of_mem _ hv, hRv⟩
          · intro ⟨v, hv, hRv⟩
            rcases List.mem_cons.mp hv with rfl | hv
            · exact absurd hRv (by simp [hu])
            · exact ⟨v, hv, hRv⟩
  · induction urls with
    | nil => rfl
    | cons h t ih =>
      cases h with
      | none => simpa [download_repo_with_fallback] using ih
      | some u =>
        by_cases hu : R u <;>
          simp [download_repo_with_fallback, List.find?, hu, ih]

/-! ### C3 theorems -/

/-- C3 counterexample. The claim says every cache lookup treats a zero-byte
entry as absent. But `cache_file_exists` reports the zero-byte cached file
as present (`true`), because it checks existence only; the same filesystem
is correctly treated as a miss by `download_file`'s own lookup. -/
theorem c3_zero_size_counterexample :
    zeroByteCacheFs
        "/root/.modsecurity_cache/files/nginx/latest/nginx-1.24.0.tar.gz" =
      some 0 ∧
    cache_file_exists zeroByteCacheFs
        "/root/.modsecurity_cache/files/nginx/latest/nginx-1.24.0.tar.gz" =
      true := by
  constructor
  · rfl
  · rfl

/-- C3 amended. `download_file`'s cache lookup is a hit exactly on an
existing entry of nonzero size — a zero-byte entry makes it fall through to
the download path — while `cache_file_exists` reports presence for any
existing entry, including zero-byte ones. -/
theorem c3_zero_size_lookup (fs : FileSys) (p : String) :
    (download_cache_hit fs p = true ↔ ∃ n, fs p = some n ∧ 0 < n) ∧
    (download_file_action fs p = .download ↔
      ¬ ∃ n, fs p = some n ∧ 0 < n) ∧
    (cache_file_exists fs p = true ↔ ∃ n, fs p = some n) := by
  refine ⟨?_, ?_, ?_⟩
  · unfold download_cache_hit
    cases hfs : fs p with
    | none => simp
    | some n => simp [hfs]
  · unfold download_file_action
    by_cases h : download_cache_hit fs p
    · have := ((by
        unfold download_cache_hit
        cases hfs : fs p with
        | none => simp
        | some n => simp [hfs]) :
          (download_cache_hit fs p = true ↔ ∃ n, fs p = some n ∧ 0 < n))
      simp [h, this.mp h]
    · have hiff : download_cache_hit fs p = true ↔
          ∃ n, fs p = some n ∧ 0 < n := by
        unfold download_cache_hit
        cases hfs : fs p with
        | none => simp
        | some n => simp [hfs]
      simp only [h, if_false]
      simp only [Bool.not_eq_true] at h
      constructor
      · intro _ hex
        exact absurd (hiff.mpr hex) (by simp [h])
      · intro _
        rfl
  · unfold cache_file_exists
    cases hfs : fs p with
    | none => simp
    | some n => simp [hfs]

/-! ### C2 theorems -/

/-- A path never equals itself with the quarantine suffix appended. -/
theorem ne_append_incompatible (d : String) : d ≠ d ++ ".incompatible" := by
  intro h
  have hl := congrArg String.length h
  rw [String.length_append] at hl
  have h13 : (".incompatible" : String).length = 13 := rfl
  omega

/-- C2. The compatibility test reports `binaryIncompatible` exactly when it
exits nonzero with the `not binary compatible` diagnostic on stderr, and in
that case the module file is renamed in place: afterwards nothing exists at
the canonical path and the file survives (not deleted) at the canonical
path plus `".incompatible"`. -/
theorem c2_binary_incompatible_quarantined (exitOk : Bool)
    (errOutput : String) (fs : String → Bool) (dst : String) :
    ((verify_and_quarantine exitOk errOutput fs dst).1 =
        .binaryIncompatible ↔
      exitOk = false ∧ hasIncompatDiag errOutput = true) ∧
    ((verify_and_quarantine exitOk errOutput fs dst).1 =
        .binaryIncompatible →
      (verify_and_quarantine exitOk errOutput fs dst).2 dst = false ∧
      (verify_and_quarantine exitOk errOutput fs dst).2
          (dst ++ ".incompatible") = fs dst) := by
  have hne := ne_append_incompatible dst
  cases exitOk with
  | true => simp [verify_and_quarantine]
  | false =>
    by_cases hdiag : hasIncompatDiag errOutput
    · refine ⟨by simp [verify_and_quarantine, hdiag], ?_⟩
      intro _
      constructor
      · simp [verify_and_quarantine, hdiag, hne]
      · simp [verify_and_quarantine, hdiag]
    · constructor
      · simp [verify_and_quarantine, hdiag]
      · intro hcontra
        exact absurd hcontra (by simp [verify_and_quarantine, hdiag])

/-- C2 witness: a concrete failing test whose stderr carries the
diagnostic; the canonical path ends up empty and the `.incompatible` copy
exists. -/
theorem c2_binary_incompatible_quarantined_witness :
    (verify_and_quarantine false "module is not binary compatible"
        (fun p => p == "/etc/nginx/modules/mod.so")
        "/etc/nginx/modules/mod.so").2 "/etc/nginx/modules/mod.so" =
      false ∧
    (verify_and_quarantine false "module is not binary compatible"
        (fun p => p == "/etc/nginx/modules/mod.so")
        "/etc/nginx/modules/mod.so").2
        ("/etc/nginx/modules/mod.so" ++ ".incompatible") = true := by
  have h := (c2_binary_incompatible_quarantined false
    "module is not binary compatible"
    (fun p => p == "/etc/nginx/modules/mod.so")
    "/etc/nginx/modules/mod.so").2 (by decide)
  exact ⟨h.1, by rw [h.2]; rfl⟩

/-! ### C5 theorems -/

/-- C5 counterexample. Neither cache write follows the
write-to-temporary-then-atomic-rename strategy: the file-download cache
save and the git-repository cache backup both fail the spec-side predicate
at concrete inputs, because each copies directly onto the final cache
path. -/
theorem c5_not_atomic_counterexample :
    writes_temp_then_renames
        (download_file_cache_save true "/tmp/modsec/nginx-1.24.0.tar.gz"
          "/cache/files/nginx/latest/nginx-1.24.0.tar.gz"
          "/cache/files/nginx/latest")
        "/cache/files/nginx/latest/nginx-1.24.0.tar.gz" = false ∧
    writes_temp_then_renames
        (clone_backup_to_cache false "/tmp/modsec/ModSecurity"
          "/cache/git/ModSecurity" "/cache/git")
        "/cache/git/ModSecurity" = false := by
  exact ⟨rfl, rfl⟩

/-- C5 amended. Every cache write copies the fetched artifact directly onto
its final cache path (`shutil.copy2` in `download_file`, `shutil.copytree`
in `clone_git_repo`), and no rename operation occurs anywhere in either
trace — so there is no temporary file and no atomic-rename step. -/
theorem c5_cache_put_direct_copy (b1 b2 : Bool)
    (t c par t2 c2 par2 : String) :
    FsOp.copyFile t c ∈ download_file_cache_save b1 t c par ∧
    trace_has_no_rename (download_file_cache_save b1 t c par) = true ∧
    FsOp.copyTree t2 c2 ∈ clone_backup_to_cache b2 t2 c2 par2 ∧
    trace_has_no_rename (clone_backup_to_cache b2 t2 c2 par2) = true := by
  refine ⟨?_, ?_, ?_, ?_⟩
  · cases b1 <;> simp [download_file_cache_save]
  · cases b1 <;> simp [download_file_cache_save, trace_has_no_rename]
  · cases b2 <;> simp [clone_backup_to_cache]
  · cases b2 <;> simp [clone_backup_to_cache, trace_has_no_rename]

/-! ### C4 theorems -/

/-- C4 counterexample. A host whose version parses but whose
`configure arguments:` line does not: the claim says the build must fail
(`HostConfigUnavailable`); the code instead proceeds into
`compile_dynamic_module` with the empty configure-argument string. -/
theorem c4_unparseable_config_counterexample :
    install_modsecurity_nginx_gate true (some "1.24.0") none =
      .proceedWith "" ∧
    ModuleBuildGate.proceedWith "" ≠ ModuleBuildGate.failed := by
  exact ⟨rfl, by decide⟩

/-- C4 amended. The gate fails exactly when the binary is missing or the
version cannot be parsed (Python truthiness of `nginx_version`); when only
the configure-arguments line is unparseable, `get_nginx_info` substitutes
the empty string and the build proceeds with it instead of failing. -/
theorem c4_gate_characterization (binaryExists : Bool)
    (versionParse configureParse : Option String) (v : String) :
    (install_modsecurity_nginx_gate binaryExists versionParse
          configureParse = .failed ↔
      binaryExists = false ∨ versionParse = none ∨
        versionParse = some "") ∧
    install_modsecurity_nginx_gate true (some v) none =
      (if v = "" then .failed else .proceedWith "") := by
  constructor
  · cases binaryExists with
    | false => simp [install_modsecurity_nginx_gate, get_nginx_info]
    | true =>
      cases versionParse with
      | none => simp [install_modsecurity_nginx_gate, get_nginx_info]
      | some w =>
        cases configureParse with
        | none =>
          by_cases hw : w = "" <;>
            simp [install_modsecurity_nginx_gate, get_nginx_info, hw]
        | some a =>
          by_cases hw : w = "" <;>
            simp [install_modsecurity_nginx_gate, get_nginx_info, hw]
  · by_cases hv : v = "" <;>
      simp [install_modsecurity_nginx_gate, get_nginx_info, hv]

/-! ### C6 theorems -/

/-- C6 counterexample. A fully-initialized repository that declares
submodules: re-running `init_git_submodules` succeeds but still performs
one subprocess call (`git submodule status`), not zero. -/
theorem c6_second_call_not_free_counterexample :
    (check_submodules_initialized
        ⟨true, true, [" 4fa6 test/mbedtls (v2.16.5)"]⟩).1 = true ∧
    (init_git_submodules ⟨true, true, [" 4fa6 test/mbedtls (v2.16.5)"]⟩
        (fun _ => .ok) 2).2 = ["git submodule status"] ∧
    (["git submodule status"] : List String) ≠ [] := by
  refine ⟨by decide, by decide, by decide⟩

/-- C6 amended. Re-running `init_git_submodules` on an unmodified,
fully-initialized tree succeeds and performs no `git submodule init` and
no `git submodule update`; its whole subprocess cost is the single
`git submodule status` check — zero subprocess calls only when the
repository declares no submodules at all. -/
theorem c6_rerun_only_status_check (s : RepoState)
    (outcome : Nat → SubmoduleAttempt) (retry : Nat)
    (hgit : s.hasGitDir = true)
    (hinit : (check_submodules_initialized s).1 = true) :
    init_git_submodules s outcome retry =
      (true,
        if s.hasGitmodules then ["git submodule status"] else []) ∧
    "git submodule init" ∉ (init_git_submodules s outcome retry).2 ∧
    "git submodule update" ∉ (init_git_submodules s outcome retry).2 ∧
    (init_git_submodules s outcome retry).2.length ≤ 1 := by
  have hmain : init_git_submodules s outcome retry =
      (true, if s.hasGitmodules then ["git submodule status"] else []) := by
    unfold init_git_submodules
    rw [hgit]
    simp only [hinit, if_true]
    cases hgm : s.hasGitmodules with
    | false =>
      simp [check_submodules_initialized, hgm]
    | true =>
      simp [check_submodules_initialized, hgm]
  refine ⟨hmain, ?_, ?_, ?_⟩
  · rw [hmain]
    cases s.hasGitmodules <;> simp
  · rw [hmain]
    cases s.hasGitmodules <;> simp
  · rw [hmain]
    cases s.hasGitmodules <;> simp

/-- C6 witness: a concrete fully-initialized repository with submodules;
the rerun succeeds with exactly the status-check subprocess. -/
theorem c6_rerun_only_status_check_witness :
    init_git_submodules ⟨true, true, [" 77aa lib/ssdeep (rel-2-14)"]⟩
        (fun _ => .ok) 2 = (true, ["git submodule status"]) := by
  have h := (c6_rerun_only_status_check
    ⟨true, true, [" 77aa lib/ssdeep (rel-2-14)"]⟩ (fun _ => .ok) 2
    rfl (by decide)).1
  simpa using h

/-! ### C7 theorems -/

/-- One build iteration performs at most one compile. -/
theorem attemptEvents_compile_le (o : AttemptOutcome) :
    (attemptEvents o).count BuildEvent.compile ≤ 1 := by
  cases o <;> decide

/-- One retried build iteration (its events plus the trailing clean)
performs at most one compile. -/
theorem attemptEvents_clean_compile_le (o : AttemptOutcome) :
    (attemptEvents o ++ [BuildEvent.clean]).count BuildEvent.compile ≤
      1 := by
  cases o <;> decide

/-- The build loop always produces at least one iteration segment. -/
theorem build_iter_snd_ne_nil (outcome : Nat → AttemptOutcome) :
    ∀ fuel attempt, (build_iter outcome attempt fuel).2 ≠ [] := by
  intro fuel
  induction fuel with
  | zero =>
    intro a
    unfold build_iter
    cases outcome a <;> simp
  | succ f _ =>
    intro a
    unfold build_iter
    cases outcome a <;> simp

/-- The build loop with `fuel` retries left performs at most `fuel + 1`
compiles in total. -/
theorem build_iter_compile_bound (outcome : Nat → AttemptOutcome) :
    ∀ fuel attempt,
      (build_iter outcome attempt fuel).2.flatten.count
          BuildEvent.compile ≤ fuel + 1 := by
  intro fuel
  induction fuel with
  | zero =>
    intro a
    unfold build_iter
    cases outcome a <;> simp [attemptEvents]
  | succ f ih =>
    intro a
    unfold build_iter
    cases h : outcome a with
    | ok => simp
    | noBuildSystem => simp
    | configFail =>
      have hc := ih (a + 1)
      have h1 := attemptEvents_clean_compile_le AttemptOutcome.configFail
      rw [List.flatten_cons, List.count_append]
      omega
    | compileFail =>
      have hc := ih (a + 1)
      have h1 := attemptEvents_clean_compile_le AttemptOutcome.compileFail
      rw [List.flatten_cons, List.count_append]
      omega
    | libMissing =>
      have hc := ih (a + 1)
      have h1 := attemptEvents_clean_compile_le AttemptOutcome.libMissing
      rw [List.flatten_cons, List.count_append]
      omega

/-- Every non-final iteration segment of the build loop ends with a clean
step. -/
theorem build_iter_clean_before_retry (outcome : Nat → AttemptOutcome) :
    ∀ fuel attempt, ∀ seg ∈ (build_iter outcome attempt fuel).2.dropLast,
      seg.getLast? = some BuildEvent.clean := by
  intro fuel
  induction fuel with
  | zero =>
    intro a seg hseg
    unfold build_iter at hseg
    cases h : outcome a <;> rw [h] at hseg <;> simp at hseg
  | succ f ih =>
    intro a seg hseg
    unfold build_iter at hseg
    cases h : outcome a with
    | ok => rw [h] at hseg; simp at hseg
    | noBuildSystem => rw [h] at hseg; simp at hseg
    | configFail =>
      rw [h] at hseg
      obtain ⟨y, ys, hys⟩ :=
        List.exists_cons_of_ne_nil (build_iter_snd_ne_nil outcome f (a + 1))
      simp only [hys, List.dropLast, List.mem_cons] at hseg
      rcases hseg with rfl | hseg
      · simp [attemptEvents]
      · exact ih (a + 1) seg (by rw [hys]; simpa using hseg)
    | compileFail =>
      rw [h] at hseg
      obtain ⟨y, ys, hys⟩ :=
        List.exists_cons_of_ne_nil (build_iter_snd_ne_nil outcome f (a + 1))
      simp only [hys, List.dropLast, List.mem_cons] at hseg
      rcases hseg with rfl | hseg
      · simp [attemptEvents]
      · exact ih (a + 1) seg (by rw [hys]; simpa using hseg)
    | libMissing =>
      rw [h] at hseg
      obtain ⟨y, ys, hys⟩ :=
        List.exists_cons_of_ne_nil (build_iter_snd_ne_nil outcome f (a + 1))
      simp only [hys, List.dropLast, List.mem_cons] at hseg
      rcases hseg with rfl | hseg
      · simp [attemptEvents]
      · exact ih (a + 1) seg (by rw [hys]; simpa using hseg)

/-- C7. `build_modsecurity` performs at most `maxRetries + 1` compile
attempts in total, and every iteration before a retry ends with a clean
(`make clean`) step. -/
theorem c7_bounded_retries_with_clean (alreadyBuilt : Bool)
    (outcome : Nat → AttemptOutcome) (maxRetries : Nat) :
    (build_modsecurity alreadyBuilt outcome maxRetries).2.flatten.count
        BuildEvent.compile ≤ maxRetries + 1 ∧
    (∀ seg ∈ (build_modsecurity alreadyBuilt outcome
        maxRetries).2.dropLast,
      seg.getLast? = some BuildEvent.clean) := by
  cases alreadyBuilt with
  | true => simp [build_modsecurity]
  | false =>
    constructor
    · simpa [build_modsecurity] using
        build_iter_compile_bound outcome maxRetries 0
    · intro seg hseg
      exact build_iter_clean_before_retry outcome maxRetries 0 seg
        (by simpa [build_modsecurity] using hseg)

/-- C7 witness: three consecutive `libMissing` iterations with
`max_retries = 2`; the compile count is bounded by 3 and the first
retried segment ends with a clean. -/
theorem c7_bounded_retries_with_clean_witness :
    (build_modsecurity false (fun _ => AttemptOutcome.libMissing)
        2).2.flatten.count BuildEvent.compile ≤ 3 ∧
    ([BuildEvent.configure, BuildEvent.compile,
        BuildEvent.clean].getLast? = some BuildEvent.clean) :=
  ⟨(c7_bounded_retries_with_clean false
      (fun _ => AttemptOutcome.libMissing) 2).1,
   (c7_bounded_retries_with_clean false
      (fun _ => AttemptOutcome.libMissing) 2).2
     [BuildEvent.configure, BuildEvent.compile, BuildEvent.clean]
     (by decide)⟩

/-! ### C8 theorems -/

/-- The appended module-add argument does not look like a prefix
argument. -/
theorem appended_arg_not_prefix_flag (c : String) :
    pyStartswith ("--add-dynamic-module=" ++ c) "--prefix=" = false := by
  unfold pyStartswith
  rw [String.data_append]
  rfl

/-- The appended module-add argument differs from the bare `--prefix`
token. -/
theorem appended_arg_ne_bare_prefix_flag (c : String) :
    ("--add-dynamic-module=" ++ c) ≠ "--prefix" := by
  intro h
  have hdata := congrArg String.data h
  rw [String.data_append] at hdata
  have hlen := congrArg List.length hdata
  rw [List.length_append] at hlen
  have h21 : ("--add-dynamic-module=" : String).data.length = 21 := rfl
  have h8 : ("--prefix" : String).data.length = 8 := rfl
  omega

/-- The appended argument does start with `--add-dynamic-module`. -/
theorem appended_arg_is_module_add (c : String) :
    pyStartswith ("--add-dynamic-module=" ++ c) "--add-dynamic-module" =
      true := by
  unfold pyStartswith
  rw [String.data_append]
  have hsplit : ("--add-dynamic-module=" : String).data =
      ("--add-dynamic-module" : String).data ++ ['='] := rfl
  rw [hsplit, List.append_assoc, List.isPrefixOf_iff_prefix]
  exact List.prefix_append _ _

/-- Every token surviving the filter is neither a prefix argument (in
either form) nor a module-add argument. -/
theorem filterConfigureArgs_clean (args : List String) (b : Bool) :
    ∀ a ∈ filterConfigureArgs b args,
      pyStartswith a "--prefix=" = false ∧ a ≠ "--prefix" ∧
        pyStartswith a "--add-dynamic-module" = false := by
  induction args generalizing b with
  | nil =>
    intro a ha
    cases b <;> simp [filterConfigureArgs] at ha
  | cons x t ih =>
    intro a ha
    cases b with
    | true =>
      exact ih false a (by simpa [filterConfigureArgs] using ha)
    | false =>
      by_cases h1 : (pyStartswith x "--prefix=" ||
          pyStartswith x "--add-dynamic-module") = true
      · exact ih false a (by
          simpa [filterConfigureArgs, h1] using ha)
      · by_cases h2 : (x == "--prefix" || x == "--add-dynamic-module") =
            true
        · exact ih true a (by
            simpa [filterConfigureArgs, h1, h2] using ha)
        · rw [show filterConfigureArgs false (x :: t) =
              x :: filterConfigureArgs false t by
            simp [filterConfigureArgs, h1, h2]] at ha
          rcases List.mem_cons.mp ha with rfl | ha
          · simp only [Bool.or_eq_true, not_or, Bool.not_eq_true] at h1 h2
            refine ⟨h1.1, ?_, h1.2⟩
            intro hx
            rw [hx] at h2
            simp at h2
          · exact ih false a ha

/-- C8 counterexample. In `build_nginx_module` — the claim's second cited
implementation — a host whose options carry its original `--prefix`: the
assembled configure list contains two installation-prefix arguments (the
hardcoded `--prefix={nginx_path}` plus the re-applied host one), not
zero. -/
theorem c8_build_nginx_module_prefix_counterexample :
    (build_nginx_module_args "/www/server/nginx"
        [("--prefix", OptValue.strVal "/www/server/nginx"),
         ("user", OptValue.strVal "www"),
         ("with-compat", OptValue.flagTrue)]
        "/tmp/modsec/ModSecurity-nginx").countP
      (fun a => pyStartswith a "--prefix=" || a == "--prefix") = 2 ∧
    (2 : Nat) ≠ 0 := by
  exact ⟨by decide, by decide⟩

/-- C8 amended. In `compile_dynamic_module` the claim holds: the argument
list contains no installation-prefix argument (neither `--prefix=...` nor
bare `--prefix`) and no module-add argument except the single appended
one, which is its last element and points at the connector source
directory. `build_nginx_module`, however, violates it: its configure list
always starts with the hardcoded `--prefix={nginx_path}`, and the host's
own `--prefix` option is re-applied as well, since its loop filters only
the `add-dynamic-module` / `add-module` keys. -/
theorem c8_filtered_args_single_module_add (hostArgs : List String)
    (connectorDir nginxPath : String)
    (options : List (String × OptValue)) (v : String) :
    ((compile_dynamic_module_args hostArgs connectorDir).countP
        (fun a => pyStartswith a "--prefix=" || a == "--prefix") = 0) ∧
    ((compile_dynamic_module_args hostArgs connectorDir).countP
        (fun a => pyStartswith a "--add-dynamic-module") = 1) ∧
    (compile_dynamic_module_args hostArgs connectorDir).getLast? =
      some ("--add-dynamic-module=" ++ connectorDir) ∧
    (build_nginx_module_args nginxPath options connectorDir).head? =
      some ("--prefix=" ++ nginxPath) ∧
    (("--prefix", OptValue.strVal v) ∈ options →
      ("--prefix=" ++ v) ∈
        build_nginx_module_args nginxPath options connectorDir) := by
  refine ⟨?_, ?_, ?_, rfl, ?_⟩
  · rw [List.countP_eq_zero]
    intro a ha
    unfold compile_dynamic_module_args at ha
    rcases List.mem_append.mp ha with ha | ha
    · obtain ⟨hpre, hbare, _⟩ := filterConfigureArgs_clean hostArgs false a ha
      simp [hpre, hbare]
    · rcases List.mem_singleton.mp ha with rfl
      simp [appended_arg_not_prefix_flag,
        appended_arg_ne_bare_prefix_flag connectorDir]
  · unfold compile_dynamic_module_args
    rw [List.countP_append]
    have hz : (filterConfigureArgs false hostArgs).countP
        (fun a => pyStartswith a "--add-dynamic-module") = 0 := by
      rw [List.countP_eq_zero]
      intro a ha
      obtain ⟨_, _, hmod⟩ := filterConfigureArgs_clean hostArgs false a ha
      simp [hmod]
    rw [hz]
    simp [List.countP_cons, appended_arg_is_module_add connectorDir]
  · unfold compile_dynamic_module_args
    exact List.getLast?_concat _
  · intro hmem
    unfold build_nginx_module_args
    refine List.mem_cons_of_mem _ (List.mem_append.mpr (Or.inl ?_))
    exact List.mem_filterMap.mpr
      ⟨("--prefix", OptValue.strVal v), hmem, rfl⟩

/-- C8 witness: for `compile_dynamic_module`, a realistic host argument
list keeps exactly the one appended module-add argument; for
`build_nginx_module`, concrete host options containing the original
`--prefix` re-apply it into the configure list. -/
theorem c8_filtered_args_single_module_add_witness :
    (compile_dynamic_module_args
        ["--prefix=/www/server/nginx", "--user=www",
          "--add-dynamic-module=/www/server/nginx/src/ngx_devel_kit",
          "--with-http_ssl_module"]
        "/tmp/modsec/ModSecurity-nginx").countP
      (fun a => pyStartswith a "--add-dynamic-module") = 1 ∧
    ("--prefix=" ++ "/usr/local/nginx") ∈
      build_nginx_module_args "/www/server/nginx"
        [("--prefix", OptValue.strVal "/usr/local/nginx"),
         ("with-compat", OptValue.flagTrue)]
        "/tmp/modsec/ModSecurity-nginx" :=
  ⟨(c8_filtered_args_single_module_add
      ["--prefix=/www/server/nginx", "--user=www",
        "--add-dynamic-module=/www/server/nginx/src/ngx_devel_kit",
        "--with-http_ssl_module"]
      "/tmp/modsec/ModSecurity-nginx" "/www/server/nginx"
      [("--prefix", OptValue.strVal "/usr/local/nginx"),
       ("with-compat", OptValue.flagTrue)] "/usr/local/nginx").2.1,
   (c8_filtered_args_single_module_add
      ["--prefix=/www/server/nginx", "--user=www",
        "--add-dynamic-module=/www/server/nginx/src/ngx_devel_kit",
        "--with-http_ssl_module"]
      "/tmp/modsec/ModSecurity-nginx" "/www/server/nginx"
      [("--prefix", OptValue.strVal "/usr/local/nginx"),
       ("with-compat", OptValue.flagTrue)] "/usr/local/nginx").2.2.2.2
     (by decide)⟩

/-! ### C9 theorems -/

/-- C9 counterexample. A corrupt archive of nonzero size that `curl`
fetches successfully on the first attempt: `download_file` reports success
— the mirror is treated as a success, not a failure — and the corrupt file
is stored in the cache, since the only verification is the size check.
Meanwhile `download_connector` can never even reach a "downloaded
successfully" state: with no archive on disk it raises `NameError` before
the first `curl`, and with a pre-existing corrupt archive it removes the
file and fails after zero `curl` attempts, trying no mirror at all. -/
theorem c9_corrupt_archive_counterexample :
    download_file_fetch_loop (fun _ => CurlOutcome.wrote .corruptTar) 1 3 =
      (true, some ArchiveQuality.corruptTar) ∧
    download_connector false none =
      ⟨.crashedNameError, 0, none⟩ ∧
    download_connector false (some .corruptTar) =
      ⟨.failedCorruptRemoved, 0, none⟩ := by
  exact ⟨rfl, rfl, rfl⟩

/-- C9 amended. `download_file` treats any successfully fetched file of
nonzero size — corrupt archives included — as a resolver success and
stores it in the cache, with no integrity verification. In
`download_connector`, tar verification exists but only for a pre-existing
archive file: a corrupt one is removed and the resolution fails with zero
`curl` attempts (no next mirror is tried); and whenever no archive is on
disk the function raises `NameError` (the mirror URL names are never
imported) before any download, so the mirror loop never runs. -/
theorem c9_corrupt_archive_behavior (dirExists : Bool)
    (q : ArchiveQuality) (outcome : Nat → CurlOutcome)
    (attempt fuel : Nat) :
    download_connector dirExists none = ⟨.crashedNameError, 0, none⟩ ∧
    download_connector false (some .corruptTar) =
      ⟨.failedCorruptRemoved, 0, none⟩ ∧
    (outcome attempt = .wrote q → q ≠ .emptyFile →
      download_file_fetch_loop outcome attempt (fuel + 1) =
        (true, some q)) := by
  refine ⟨rfl, rfl, ?_⟩
  intro hq hne
  unfold download_file_fetch_loop
  rw [hq]
  simp [hne]

/-- C9 witness: a first-attempt successful fetch of a valid archive makes
the loop succeed with the file cached. -/
theorem c9_corrupt_archive_behavior_witness :
    download_file_fetch_loop (fun _ => CurlOutcome.wrote .validTar) 1 2 =
      (true, some ArchiveQuality.validTar) :=
  (c9_corrupt_archive_behavior false .validTar
    (fun _ => CurlOutcome.wrote .validTar) 1 1).2.2 rfl (by decide)

/-! ### C10 theorems -/

/-- A category never counts more installed packages than it has. -/
theorem install_loop_count_le (l : List RpmOutcome) :
    install_loop_count l ≤ l.length := by
  induction l with
  | nil => simp [install_loop_count]
  | cons o rest ih =>
    unfold install_loop_count
    by_cases h : rpmInstalled o <;> simp [h] <;> omega

/-- C10. `install_direct_rpm_dependencies` reports overall success exactly
when the installed-package count reaches half of the predefined total
(`install_success_count >= total_packages / 2`, exact division); hence a
run in which at most half of the package installs fail still reports
success, and the count never exceeds the total. -/
theorem c10_half_threshold (cats : List (List RpmOutcome)) :
    (install_direct_rpm_dependencies cats = true ↔
      total_packages cats ≤ 2 * install_success_count cats) ∧
    install_success_count cats ≤ total_packages cats ∧
    (2 * (total_packages cats - install_success_count cats) ≤
        total_packages cats →
      install_direct_rpm_dependencies cats = true) := by
  have hle : install_success_count cats ≤ total_packages cats := by
    unfold install_success_count total_packages
    induction cats with
    | nil => simp
    | cons l rest ih =>
      simp only [List.map_cons, List.sum_cons]
      have := install_loop_count_le l
      omega
  have hiff : install_direct_rpm_dependencies cats = true ↔
      total_packages cats ≤ 2 * install_success_count cats := by
    unfold install_direct_rpm_dependencies
    rw [decide_eq_true_iff]
    rw [div_le_iff₀ (by norm_num : (0 : ℚ) < 2)]
    constructor
    · intro h
      have h2 : (total_packages cats : ℚ) ≤
          ((2 * install_success_count cats : ℕ) : ℚ) := by
        push_cast
        linarith
      exact_mod_cast h2
    · intro h
      have h2 : ((total_packages cats : ℕ) : ℚ) ≤
          ((2 * install_success_count cats : ℕ) : ℚ) := by
        exact_mod_cast h
      push_cast at h2
      linarith
  refine ⟨hiff, hle, ?_⟩
  intro h
  rw [hiff]
  omega

/-- C10 witness: eleven packages in the predefined category layout, six of
which install; 6 of 11 is at least half, so the run reports success. -/
theorem c10_half_threshold_witness :
    install_direct_rpm_dependencies
      [[⟨true, true, true⟩, ⟨true, true, true⟩, ⟨true, true, true⟩],
       [⟨true, true, true⟩, ⟨true, true, true⟩, ⟨true, true, true⟩],
       [⟨false, true, true⟩, ⟨true, false, true⟩, ⟨true, true, false⟩,
        ⟨false, false, false⟩],
       [⟨false, true, false⟩]] = true := by
  apply (c10_half_threshold _).2.2
  decide

end ModSecInstall
